import Mathlib

/-!
Verification of the streaming chat accumulator of the data_analysis_agent
frontend (src/frontend/src/hooks/useChat.ts together with the data model in
src/frontend/src/types/chat.ts and the turn dispatch in sendMessage).

The accumulator folds typed SSE events into an ordered list of blocks held in
a ref cell (blocksRef), mirrored into the rendered streaming list
(streamingBlocks); done and error events commit the accumulated blocks into
the message history.  All definitions below are direct translations of the
TypeScript source; the only spec-modelled definition (handleWarning) is
marked as such in its doc comment.
-/

namespace DataAnalysisChat

/-- ToolCallStatus from types/chat.ts: a tool-call block is either still
running or done. -/
inductive ToolCallStatus where
  | running
  | done
deriving DecidableEq, Repr

/-- Tool-call arguments (a JS object Record of string to unknown); modelled
as an association list, the accumulator never inspects it. -/
abbrev ToolArgs := List (String × String)

/-- Block from types/chat.ts: the discriminated union of renderable block
variants.  The warning variant does not appear in the checked-in
types/chat.ts but is referenced by the BlockRenderer in the repository
(BlockType.WARNING with a message field); it is included so that the
spec-modelled warning handler can be stated.  No event of the checked-in
accumulator ever produces it. -/
inductive Block where
  | thinking (id : String) (content : String)
  | text (id : String) (content : String)
  | toolCall (id : String) (name : String) (args : ToolArgs)
      (result : Option String) (status : ToolCallStatus)
  | plotly (id : String) (json : String)
  | dataTable (id : String) (json : String)
  | error (id : String) (message : String)
  | warning (id : String) (message : String)
deriving DecidableEq, Repr

/-- SSEEvent from types/chat.ts: the typed wire events consumed by
handleSSEMessage. -/
inductive SSEEvent where
  | thinking (content : String)
  | text (content : String)
  | toolCallStart (name : String) (args : ToolArgs)
  | toolCallResult (result : String)
  | plotly (json : String)
  | dataTable (json : String)
  | done
  | error (message : String)
deriving DecidableEq, Repr

/-- Message from types/chat.ts: user messages carry text, assistant messages
carry a block list. -/
inductive Message where
  | user (id : String) (content : String)
  | assistant (id : String) (blocks : List Block)
deriving DecidableEq, Repr

/-- The state held by the useChat hook: message history, the streaming block
list that is rendered (streamingBlocks), the loading flag, the ref cell
backing accumulation (blocksRef), the pre-assigned id of the in-flight
assistant message (streamingMessageIdRef), the module-level id counters, and
whether the SSE channel is connected (the eventSourceRef of useSSE). -/
structure ChatState where
  email : String
  messages : List Message
  streamingBlocks : List Block
  isLoading : Bool
  blocksRef : List Block
  streamingMessageId : Option String
  blockIdCounter : Nat
  messageIdCounter : Nat
  connected : Bool
deriving DecidableEq, Repr

/-- String.prototype.trim as used by sendMessage, modelled over the
character list: strip whitespace from both ends. -/
def jsTrim (s : String) : String :=
  String.mk (((s.data.dropWhile Char.isWhitespace).reverse.dropWhile Char.isWhitespace).reverse)

/-- nextBlockId: ids are block-N with a pre-incremented counter. -/
def freshBlockId (n : Nat) : String := "block-" ++ toString n

/-- nextMessageId: ids are msg-N with a pre-incremented counter. -/
def freshMessageId (n : Nat) : String := "msg-" ++ toString n

/-- A tool-call block whose status is RUNNING (the findLastIndex predicate
used by the tool_call_result, plotly and data_table cases). -/
def Block.isRunningTool : Block → Bool
  | .toolCall _ _ _ _ .running => true
  | _ => false

/-- A content-bearing block: thinking (reasoning) or text (answer). -/
def Block.isContent : Block → Bool
  | .thinking _ _ => true
  | .text _ _ => true
  | _ => false

/-- Discriminant index of a block variant, used to compare block kinds. -/
def Block.kindIdx : Block → Nat
  | .thinking _ _ => 0
  | .text _ _ => 1
  | .toolCall _ _ _ _ _ => 2
  | .plotly _ _ => 3
  | .dataTable _ _ => 4
  | .error _ _ => 5
  | .warning _ _ => 6

/-- Two blocks are of the same kind when they use the same variant. -/
def Block.sameKind (a b : Block) : Bool := a.kindIdx == b.kindIdx

/-- The updater passed to updateLastBlock in the THINKING case: append the
chunk to a thinking block, leave any other block unchanged (the defensive
type check in the source). -/
def appendThinkingContent (c : String) : Block → Block
  | .thinking id t => .thinking id (t ++ c)
  | b => b

/-- The updater passed to updateLastBlock in the TEXT case. -/
def appendTextContent (c : String) : Block → Block
  | .text id t => .text id (t ++ c)
  | b => b

/-- The update done by markLastToolCallDone at the found index: spread the
block with status DONE (only tool-call blocks are touched, matching the
type guard in the source); the result field is left as it is. -/
def setToolStatusDone : Block → Block
  | .toolCall id n a r _ => .toolCall id n a r .done
  | b => b

/-- The update done by the TOOL_CALL_RESULT case at the found index: set the
result and mark the block DONE. -/
def setToolResult (r : String) : Block → Block
  | .toolCall id n a _ _ => .toolCall id n a (some r) .done
  | b => b

/-- The list part of updateLastBlock: blocks.slice(0,-1) concatenated with
the updated last element; the empty list is returned unchanged. -/
def updateLast (f : Block → Block) : List Block → List Block
  | [] => []
  | [b] => [f b]
  | b :: bs => b :: updateLast f bs

/-- Replace the element at an index (updated[idx] = ... on a copy). -/
def modifyAt (f : Block → Block) : Nat → List Block → List Block
  | _, [] => []
  | 0, b :: bs => f b :: bs
  | Nat.succ i, b :: bs => b :: modifyAt f i bs

/-- Array.prototype.findLastIndex, with indices counted from the given
offset; none plays the role of -1. -/
def findLastIndexFrom (p : Block → Bool) : List Block → Nat → Option Nat
  | [], _ => none
  | b :: bs, i =>
    match findLastIndexFrom p bs (i + 1) with
    | some j => some j
    | none => if p b then some i else none

/-- blocks.findLastIndex(p). -/
def findLastIndex (p : Block → Bool) (bs : List Block) : Option Nat :=
  findLastIndexFrom p bs 0

/-- The branch condition of the THINKING case: the last accumulated block
exists and is a thinking block. -/
def lastIsThinkingBlock (bs : List Block) : Bool :=
  match bs.getLast? with
  | some (.thinking _ _) => true
  | _ => false

/-- The branch condition of the TEXT case: the last accumulated block exists
and is a text block. -/
def lastIsTextBlock (bs : List Block) : Bool :=
  match bs.getLast? with
  | some (.text _ _) => true
  | _ => false

/-- Setting blocksRef and immediately calling updateBlocks, which copies the
ref into the rendered streamingBlocks. -/
def ChatState.withBlocks (s : ChatState) (bs : List Block) : ChatState :=
  { s with blocksRef := bs, streamingBlocks := bs }

/-- addBlock: append a block carrying a fresh id to blocksRef and sync
streamingBlocks. -/
def ChatState.addBlock (s : ChatState) (mk : String → Block) : ChatState :=
  { s with blockIdCounter := s.blockIdCounter + 1,
           blocksRef := s.blocksRef ++ [mk (freshBlockId (s.blockIdCounter + 1))],
           streamingBlocks := s.blocksRef ++ [mk (freshBlockId (s.blockIdCounter + 1))] }

/-- markLastToolCallDone: flip the status of the last RUNNING tool call to
DONE, on blocksRef only — the source does not call updateBlocks here, the
following addBlock resyncs streamingBlocks. -/
def ChatState.markLastToolCallDone (s : ChatState) : ChatState :=
  match findLastIndex Block.isRunningTool s.blocksRef with
  | some i => { s with blocksRef := modifyAt setToolStatusDone i s.blocksRef }
  | none => s

/-- streamingMessageIdRef.current or nextMessageId(): the id used for the
committed assistant message together with the resulting message counter
(bumped only when no id was pre-assigned). -/
def commitMessageId (s : ChatState) : String × Nat :=
  match s.streamingMessageId with
  | some id => (id, s.messageIdCounter)
  | none => (freshMessageId (s.messageIdCounter + 1), s.messageIdCounter + 1)

/-- handleSSEMessage from useChat.ts: fold one SSE event into the state.
Each arm is a direct translation of the corresponding switch case. -/
def handleSSEMessage (s : ChatState) (e : SSEEvent) : ChatState :=
  match e with
  | .thinking c =>
    match s.blocksRef.getLast? with
    | some (.thinking _ _) => s.withBlocks (updateLast (appendThinkingContent c) s.blocksRef)
    | _ => s.addBlock (fun id => .thinking id c)
  | .text c =>
    match s.blocksRef.getLast? with
    | some (.text _ _) => s.withBlocks (updateLast (appendTextContent c) s.blocksRef)
    | _ => s.addBlock (fun id => .text id c)
  | .toolCallStart name args =>
    s.addBlock (fun id => .toolCall id name args none ToolCallStatus.running)
  | .toolCallResult r =>
    match findLastIndex Block.isRunningTool s.blocksRef with
    | some i => s.withBlocks (modifyAt (setToolResult r) i s.blocksRef)
    | none => s
  | .plotly j =>
    s.markLastToolCallDone.addBlock (fun id => .plotly id j)
  | .dataTable j =>
    s.markLastToolCallDone.addBlock (fun id => .dataTable id j)
  | .done =>
    if s.blocksRef.isEmpty then
      { s with blocksRef := [], streamingBlocks := [], isLoading := false,
               streamingMessageId := none }
    else
      let idc := commitMessageId s
      { s with messages := s.messages ++ [.assistant idc.1 s.blocksRef],
               messageIdCounter := idc.2,
               blocksRef := [], streamingBlocks := [], isLoading := false,
               streamingMessageId := none }
  | .error m =>
    let s1 := s.addBlock (fun id => .error id m)
    let idc := commitMessageId s1
    { s1 with messages := s1.messages ++ [.assistant idc.1 s1.blocksRef],
              messageIdCounter := idc.2,
              blocksRef := [], streamingBlocks := [], isLoading := false,
              streamingMessageId := none }

/-- sendMessage from useChat.ts: guard on empty trimmed text, loading flag
and empty email; append the user message; set loading; clear the block
state; pre-assign the streaming assistant message id; connect; then either
the request succeeds (requestOk) or the catch branch appends a synthesized
error message, clears the pre-assigned id and the loading flag, and
disconnects. -/
def sendMessage (s : ChatState) (text : String) (requestOk : Bool) : ChatState :=
  if (jsTrim text).isEmpty || s.isLoading || s.email.isEmpty then s
  else
    let s1 : ChatState :=
      { s with
        messages := s.messages ++ [.user (freshMessageId (s.messageIdCounter + 1)) (jsTrim text)],
        isLoading := true,
        blocksRef := [], streamingBlocks := [],
        streamingMessageId := some (freshMessageId (s.messageIdCounter + 2)),
        messageIdCounter := s.messageIdCounter + 2,
        connected := true }
    if requestOk then s1
    else
      { s1 with
        messages := s1.messages ++
          [.assistant (freshMessageId (s1.messageIdCounter + 1))
            [.error (freshBlockId (s1.blockIdCounter + 1)) "Erreur de connexion au serveur."]],
        messageIdCounter := s1.messageIdCounter + 1,
        blockIdCounter := s1.blockIdCounter + 1,
        streamingMessageId := none,
        isLoading := false,
        connected := false }

/-- Modelled from the spec: the warning event case of the stream accumulator.
The checked-in useChat.ts switch has no warning case (and the checked-in
SSEEventType has no warning member), while the BlockRenderer shipped in the
repository renders warning blocks, so the accumulator version handling them
is missing from the sources.  Per the spec transition table, a Warning(msg)
event appends a closed WarningBlock and does not touch the active block. -/
def handleWarning (s : ChatState) (msg : String) : ChatState :=
  s.addBlock (fun id => .warning id msg)

/-- The initial hook state: empty history, nothing streaming, not loading,
no pre-assigned id, counters at zero, channel closed. -/
def initState : ChatState :=
  { email := "user@example.com", messages := [], streamingBlocks := [],
    isLoading := false, blocksRef := [], streamingMessageId := none,
    blockIdCounter := 0, messageIdCounter := 0, connected := false }

/-- Openness of the head block relative to the rest of its suffix of the
streaming sequence, following the reading fixed by the claims: a tool-call
block is open exactly when its status is RUNNING; a reasoning or answer
block is open until a block of another kind follows it (terminal events
clear the streaming sequence, so a block still in the streaming sequence has
not been followed by a terminal event). -/
def openSuffix : List Block → Bool
  | [] => false
  | b :: rest => b.isRunningTool || (b.isContent && rest.all (fun x => b.sameKind x))

/-- Number of open blocks in a streaming block sequence. -/
def openCount : List Block → Nat
  | [] => 0
  | b :: rest => (if openSuffix (b :: rest) then 1 else 0) + openCount rest

/-- Terminal events: done and error. -/
def SSEEvent.isTerminal : SSEEvent → Bool
  | .done => true
  | .error _ => true
  | _ => false

/-- Fold a list of events from the state reached by a successful
sendMessage: the state of a turn after its initial events. -/
def afterTurnEvents (s : ChatState) (text : String) (evs : List SSEEvent) : ChatState :=
  List.foldl handleSSEMessage (sendMessage s text true) evs

/-- updateLast rewrites exactly the last element of a nonempty list. -/
theorem updateLast_concat (f : Block → Block) (xs : List Block) (x : Block) :
    updateLast f (xs ++ [x]) = xs ++ [f x] := by
  induction xs with
  | nil => rfl
  | cons a ys ih =>
    cases ys with
    | nil => rfl
    | cons b zs =>
      simp only [List.cons_append, updateLast] at ih ⊢
      exact congrArg (a :: ·) ih

/-- Splitting a vanishing open count over a cons cell. -/
theorem openCount_cons_zero (b : Block) (rest : List Block)
    (h : openCount (b :: rest) = 0) :
    openSuffix (b :: rest) = false ∧ openCount rest = 0 := by
  cases hb : openSuffix (b :: rest) with
  | false =>
    refine ⟨rfl, ?_⟩
    simpa [openCount, hb] using h
  | true =>
    exfalso
    simp [openCount, hb] at h

/-- A closed head block stays closed when a block is appended at the end. -/
theorem openSuffix_concat_of_not_open (b : Block) (rest : List Block) (c : Block)
    (h : openSuffix (b :: rest) = false) : openSuffix (b :: (rest ++ [c])) = false := by
  simp only [openSuffix, Bool.or_eq_false_iff, Bool.and_eq_false_iff] at h ⊢
  refine ⟨h.1, ?_⟩
  rcases h.2 with hc | ha
  · exact Or.inl hc
  · refine Or.inr ?_
    simp [List.all_append, ha]

/-- Appending one block to a fully closed sequence leaves at most the new
block open. -/
theorem openCount_concat_of_zero (bs : List Block) (c : Block)
    (h : openCount bs = 0) :
    openCount (bs ++ [c]) = if openSuffix [c] then 1 else 0 := by
  induction bs with
  | nil => simp [openCount]
  | cons b rest ih =>
    rcases openCount_cons_zero b rest h with ⟨h1, h2⟩
    have e1 : openCount ((b :: rest) ++ [c])
        = (if openSuffix (b :: (rest ++ [c])) then 1 else 0) + openCount (rest ++ [c]) := rfl
    rw [e1, openSuffix_concat_of_not_open b rest c h1, ih h2]
    simp

/-- A fully closed sequence contains no RUNNING tool-call block. -/
theorem not_running_of_openCount_zero (bs : List Block)
    (h : openCount bs = 0) : ∀ b ∈ bs, b.isRunningTool = false := by
  induction bs with
  | nil => intro b hb; cases hb
  | cons a rest ih =>
    intro b hb
    rcases openCount_cons_zero a rest h with ⟨h1, h2⟩
    rcases List.mem_cons.mp hb with rfl | hmem
    · simp only [openSuffix, Bool.or_eq_false_iff] at h1
      exact h1.1
    · exact ih h2 b hmem

/-- A fully closed sequence does not end in a content block. -/
theorem getLast_not_content_of_openCount_zero (bs : List Block)
    (h : openCount bs = 0) : ∀ b, bs.getLast? = some b → b.isContent = false := by
  induction bs with
  | nil => intro b hb; cases hb
  | cons a rest ih =>
    intro b hb
    rcases openCount_cons_zero a rest h with ⟨h1, h2⟩
    cases rest with
    | nil =>
      simp only [List.getLast?_singleton, Option.some.injEq] at hb
      subst hb
      simp only [openSuffix, List.all_nil, Bool.and_true, Bool.or_eq_false_iff] at h1
      exact h1.2
    | cons x xs =>
      rw [List.getLast?_cons_cons] at hb
      exact ih h2 b hb

/-- findLastIndexFrom finds nothing when no element satisfies the
predicate. -/
theorem findLastIndexFrom_eq_none (p : Block → Bool) (bs : List Block)
    (h : ∀ b ∈ bs, p b = false) : ∀ i, findLastIndexFrom p bs i = none := by
  induction bs with
  | nil => intro i; rfl
  | cons a rest ih =>
    intro i
    have ha : p a = false := h a (List.mem_cons_self a rest)
    have hrest : ∀ b ∈ rest, p b = false := fun b hb => h b (List.mem_cons_of_mem a hb)
    simp [findLastIndexFrom, ih hrest, ha]

/-- findLastIndex finds nothing when no element satisfies the predicate. -/
theorem findLastIndex_eq_none (p : Block → Bool) (bs : List Block)
    (h : ∀ b ∈ bs, p b = false) : findLastIndex p bs = none :=
  findLastIndexFrom_eq_none p bs h 0

/-- The THINKING case appends a fresh block when the last block is not a
thinking block. -/
theorem handle_thinking_fresh (s : ChatState) (c : String)
    (h1 : lastIsThinkingBlock s.blocksRef = false) :
    handleSSEMessage s (SSEEvent.thinking c) = s.addBlock (fun id => Block.thinking id c) := by
  simp only [handleSSEMessage]
  split
  · next id t heq => simp [lastIsThinkingBlock, heq] at h1
  · rfl

/-- The TEXT case appends a fresh block when the last block is not a text
block. -/
theorem handle_text_fresh (s : ChatState) (c : String)
    (h1 : lastIsTextBlock s.blocksRef = false) :
    handleSSEMessage s (SSEEvent.text c) = s.addBlock (fun id => Block.text id c) := by
  simp only [handleSSEMessage]
  split
  · next id t heq => simp [lastIsTextBlock, heq] at h1
  · rfl

/-- The THINKING case coalesces into a trailing thinking block. -/
theorem handle_thinking_coalesce (s : ChatState) (bs : List Block) (id t c : String)
    (hb : s.blocksRef = bs ++ [Block.thinking id t]) :
    (handleSSEMessage s (SSEEvent.thinking c)).blocksRef
      = bs ++ [Block.thinking id (t ++ c)] := by
  simp only [handleSSEMessage, hb, List.getLast?_concat]
  simp [ChatState.withBlocks, updateLast_concat, appendThinkingContent]

/-- The TEXT case coalesces into a trailing text block. -/
theorem handle_text_coalesce (s : ChatState) (bs : List Block) (id t c : String)
    (hb : s.blocksRef = bs ++ [Block.text id t]) :
    (handleSSEMessage s (SSEEvent.text c)).blocksRef
      = bs ++ [Block.text id (t ++ c)] := by
  simp only [handleSSEMessage, hb, List.getLast?_concat]
  simp [ChatState.withBlocks, updateLast_concat, appendTextContent]

/-- The DONE case on a nonempty block list commits the accumulated blocks
verbatim and resets the streaming state. -/
theorem handle_done_commit (s : ChatState) (h : s.blocksRef ≠ []) :
    handleSSEMessage s SSEEvent.done =
      { s with messages := s.messages ++ [.assistant (commitMessageId s).1 s.blocksRef],
               messageIdCounter := (commitMessageId s).2,
               blocksRef := [], streamingBlocks := [], isLoading := false,
               streamingMessageId := none } := by
  simp only [handleSSEMessage]
  split
  · next hemp =>
    exfalso
    exact h (List.isEmpty_iff.mp hemp)
  · rfl

/-- The DONE case on an empty block list only resets the streaming state. -/
theorem handle_done_empty (s : ChatState) (h : s.blocksRef = []) :
    handleSSEMessage s SSEEvent.done =
      { s with blocksRef := [], streamingBlocks := [], isLoading := false,
               streamingMessageId := none } := by
  simp only [handleSSEMessage]
  split
  · rfl
  · next hemp =>
    exfalso
    exact hemp (by simp [h])

/-- The ERROR case appends a closed error block, commits everything and
resets the streaming state. -/
theorem handle_error_eq (s : ChatState) (m : String) :
    handleSSEMessage s (SSEEvent.error m) =
      { s with messages := s.messages ++ [.assistant (commitMessageId s).1
                  (s.blocksRef ++ [Block.error (freshBlockId (s.blockIdCounter + 1)) m])],
               messageIdCounter := (commitMessageId s).2,
               blockIdCounter := s.blockIdCounter + 1,
               blocksRef := [], streamingBlocks := [], isLoading := false,
               streamingMessageId := none } := rfl

/-- Non-terminal events never touch the pre-assigned assistant message
id. -/
theorem streamingMessageId_step (s : ChatState) (e : SSEEvent)
    (h : e.isTerminal = false) :
    (handleSSEMessage s e).streamingMessageId = s.streamingMessageId := by
  cases e with
  | thinking c =>
    simp only [handleSSEMessage]
    split <;> rfl
  | text c =>
    simp only [handleSSEMessage]
    split <;> rfl
  | toolCallStart name args => rfl
  | toolCallResult r =>
    simp only [handleSSEMessage]
    split <;> rfl
  | plotly j =>
    simp only [handleSSEMessage, ChatState.markLastToolCallDone]
    split <;> rfl
  | dataTable j =>
    simp only [handleSSEMessage, ChatState.markLastToolCallDone]
    split <;> rfl
  | done => simp [SSEEvent.isTerminal] at h
  | error m => simp [SSEEvent.isTerminal] at h

/-- Folding any number of non-terminal events preserves the pre-assigned
assistant message id. -/
theorem streamingMessageId_foldl (evs : List SSEEvent) (s : ChatState)
    (h : ∀ e ∈ evs, e.isTerminal = false) :
    (List.foldl handleSSEMessage s evs).streamingMessageId = s.streamingMessageId := by
  induction evs generalizing s with
  | nil => rfl
  | cons e rest ih =>
    have he : e.isTerminal = false := h e (List.mem_cons_self e rest)
    have hrest : ∀ x ∈ rest, x.isTerminal = false :=
      fun x hx => h x (List.mem_cons_of_mem e hx)
    simp only [List.foldl_cons]
    rw [ih _ hrest, streamingMessageId_step s e he]

/-- Claim C1 (amended): from a state in which no block of the streaming
sequence is open, processing one event of any type leaves at most one block
open.  The unrestricted single-open invariant of the claim is refuted by
c1_counterexample: tool_call_start does not close a previously open RUNNING
tool-call block. -/
theorem c1_single_open_after_step (s : ChatState) (e : SSEEvent)
    (h : openCount s.blocksRef = 0) :
    openCount (handleSSEMessage s e).blocksRef ≤ 1 := by
  cases e with
  | thinking c =>
    simp only [handleSSEMessage]
    split
    · next id t heq =>
      have := getLast_not_content_of_openCount_zero _ h _ heq
      simp [Block.isContent] at this
    · simp only [ChatState.addBlock]
      rw [openCount_concat_of_zero _ _ h]
      split <;> simp
  | text c =>
    simp only [handleSSEMessage]
    split
    · next id t heq =>
      have := getLast_not_content_of_openCount_zero _ h _ heq
      simp [Block.isContent] at this
    · simp only [ChatState.addBlock]
      rw [openCount_concat_of_zero _ _ h]
      split <;> simp
  | toolCallStart name args =>
    simp only [handleSSEMessage, ChatState.addBlock]
    rw [openCount_concat_of_zero _ _ h]
    split <;> simp
  | toolCallResult r =>
    have hnone := findLastIndex_eq_none Block.isRunningTool s.blocksRef
      (not_running_of_openCount_zero _ h)
    simp only [handleSSEMessage, hnone]
    simp [h]
  | plotly j =>
    have hnone := findLastIndex_eq_none Block.isRunningTool s.blocksRef
      (not_running_of_openCount_zero _ h)
    simp only [handleSSEMessage, ChatState.markLastToolCallDone, hnone, ChatState.addBlock]
    rw [openCount_concat_of_zero _ _ h]
    simp [openSuffix, Block.isRunningTool, Block.isContent]
  | dataTable j =>
    have hnone := findLastIndex_eq_none Block.isRunningTool s.blocksRef
      (not_running_of_openCount_zero _ h)
    simp only [handleSSEMessage, ChatState.markLastToolCallDone, hnone, ChatState.addBlock]
    rw [openCount_concat_of_zero _ _ h]
    simp [openSuffix, Block.isRunningTool, Block.isContent]
  | done =>
    simp only [handleSSEMessage]
    split <;> simp [openCount]
  | error m =>
    simp only [handleSSEMessage]
    simp [openCount]

/-- Claim C1 counterexample: two consecutive tool_call_start events leave
two RUNNING (hence open) tool-call blocks in the streaming sequence, so the
single-open invariant fails and tool_call_start does not close the
previously open block. -/
theorem c1_counterexample :
    openCount ((List.foldl handleSSEMessage initState
      [SSEEvent.toolCallStart "a" [], SSEEvent.toolCallStart "n" []]).blocksRef) = 2 := by
  decide

/-- Claim C1 witness: the amended step property applied to the initial state
and a tool_call_start event. -/
theorem c1_witness :
    openCount initState.blocksRef = 0
    ∧ openCount (handleSSEMessage initState (SSEEvent.toolCallStart "q" [])).blocksRef ≤ 1 :=
  ⟨rfl, c1_single_open_after_step initState (SSEEvent.toolCallStart "q" []) rfl⟩

/-- Claim C2 (amended): on a terminal done event (with a nonempty block
list) or error event, the accumulated blocks are copied verbatim into the
finalized assistant message — blocks still open, in particular RUNNING
tool-call blocks, are not forced closed — and the streaming sequence is
reset to empty with the loading flag cleared; error additionally appends a
closed ErrorBlock before committing.  The force-close part of the claim is
refuted by c2_counterexample. -/
theorem c2_commit_verbatim (s : ChatState) (m : String) (h : s.blocksRef ≠ []) :
    (handleSSEMessage s SSEEvent.done).messages
      = s.messages ++ [Message.assistant (commitMessageId s).1 s.blocksRef]
    ∧ (handleSSEMessage s SSEEvent.done).blocksRef = []
    ∧ (handleSSEMessage s SSEEvent.done).streamingBlocks = []
    ∧ (handleSSEMessage s SSEEvent.done).isLoading = false
    ∧ (handleSSEMessage s (SSEEvent.error m)).messages
      = s.messages ++ [Message.assistant (commitMessageId s).1
          (s.blocksRef ++ [Block.error (freshBlockId (s.blockIdCounter + 1)) m])]
    ∧ (handleSSEMessage s (SSEEvent.error m)).blocksRef = []
    ∧ (handleSSEMessage s (SSEEvent.error m)).streamingBlocks = []
    ∧ (handleSSEMessage s (SSEEvent.error m)).isLoading = false := by
  rw [handle_done_commit s h, handle_error_eq s m]
  exact ⟨rfl, rfl, rfl, rfl, rfl, rfl, rfl, rfl⟩

/-- Claim C2 counterexample: a done event arriving while a tool-call block
is still RUNNING commits a finalized message that contains that RUNNING
(open) block, so the finalized message does not contain zero open blocks. -/
theorem c2_counterexample :
    (List.foldl handleSSEMessage initState
        [SSEEvent.toolCallStart "q" [], SSEEvent.done]).messages
      = [Message.assistant "msg-1" [Block.toolCall "block-1" "q" [] none ToolCallStatus.running]]
    ∧ Block.isRunningTool (Block.toolCall "block-1" "q" [] none ToolCallStatus.running) = true :=
  ⟨by decide, rfl⟩

/-- Claim C2 witness: the amended commit property applied to the state
holding one RUNNING tool-call block. -/
theorem c2_witness :
    (handleSSEMessage initState (SSEEvent.toolCallStart "q" [])).blocksRef ≠ []
    ∧ (handleSSEMessage (handleSSEMessage initState (SSEEvent.toolCallStart "q" []))
        SSEEvent.done).messages
      = (handleSSEMessage initState (SSEEvent.toolCallStart "q" [])).messages
        ++ [Message.assistant
              (commitMessageId (handleSSEMessage initState (SSEEvent.toolCallStart "q" []))).1
              (handleSSEMessage initState (SSEEvent.toolCallStart "q" [])).blocksRef] :=
  ⟨by decide, (c2_commit_verbatim (handleSSEMessage initState (SSEEvent.toolCallStart "q" []))
      "m" (by decide)).1⟩

/-- Claim C3 (amended): if the last accumulated block is not a thinking
block and not a text block, two consecutive thinking events carrying a then
b append exactly one new block, a thinking block with content a ++ b,
leaving all previously accumulated blocks unchanged; the analogous statement
holds for two consecutive text events.  The unrestricted for-any-state claim
is refuted by c3_counterexample. -/
theorem c3_coalescing (s : ChatState) (a b : String)
    (h1 : lastIsThinkingBlock s.blocksRef = false)
    (h2 : lastIsTextBlock s.blocksRef = false) :
    ((handleSSEMessage (handleSSEMessage s (SSEEvent.thinking a)) (SSEEvent.thinking b)).blocksRef
        = s.blocksRef ++ [Block.thinking (freshBlockId (s.blockIdCounter + 1)) (a ++ b)])
    ∧ ((handleSSEMessage (handleSSEMessage s (SSEEvent.text a)) (SSEEvent.text b)).blocksRef
        = s.blocksRef ++ [Block.text (freshBlockId (s.blockIdCounter + 1)) (a ++ b)]) := by
  constructor
  · rw [handle_thinking_fresh s a h1]
    exact handle_thinking_coalesce _ s.blocksRef _ a b rfl
  · rw [handle_text_fresh s a h2]
    exact handle_text_coalesce _ s.blocksRef _ a b rfl

/-- Claim C3 counterexample: in a state whose last block is an open thinking
block with content x, the two thinking events a and b append zero blocks
(not exactly one) and the resulting single thinking block carries xab, not
ab. -/
theorem c3_counterexample :
    ((handleSSEMessage (handleSSEMessage (handleSSEMessage initState (SSEEvent.thinking "x"))
        (SSEEvent.thinking "a")) (SSEEvent.thinking "b")).blocksRef
      = [Block.thinking "block-1" "xab"])
    ∧ ((handleSSEMessage (handleSSEMessage (handleSSEMessage initState (SSEEvent.thinking "x"))
        (SSEEvent.thinking "a")) (SSEEvent.thinking "b")).blocksRef.length
      = (handleSSEMessage initState (SSEEvent.thinking "x")).blocksRef.length) :=
  ⟨by decide, by decide⟩

/-- Claim C3 witness: the amended coalescing property applied to the initial
state. -/
theorem c3_witness :
    lastIsThinkingBlock initState.blocksRef = false
    ∧ lastIsTextBlock initState.blocksRef = false
    ∧ ((handleSSEMessage (handleSSEMessage initState (SSEEvent.thinking "a"))
        (SSEEvent.thinking "b")).blocksRef
      = initState.blocksRef
        ++ [Block.thinking (freshBlockId (initState.blockIdCounter + 1)) ("a" ++ "b")]) :=
  ⟨rfl, rfl, (c3_coalescing initState "a" "b" rfl rfl).1⟩

/-- Claim C4: a tool_call_result event arriving while no RUNNING tool-call
block is present leaves the whole state (in particular the block sequence)
completely unchanged: the result is dropped and never attached to any other
block. -/
theorem c4_dangling_result_dropped (s : ChatState) (r : String)
    (h : ∀ b ∈ s.blocksRef, b.isRunningTool = false) :
    handleSSEMessage s (SSEEvent.toolCallResult r) = s := by
  simp only [handleSSEMessage, findLastIndex_eq_none Block.isRunningTool s.blocksRef h]

/-- Claim C4 witness: after a tool call has finished, a second
tool_call_result is dropped. -/
theorem c4_witness :
    (∀ b ∈ (List.foldl handleSSEMessage initState
        [SSEEvent.toolCallStart "q" [], SSEEvent.toolCallResult "1"]).blocksRef,
      b.isRunningTool = false)
    ∧ handleSSEMessage (List.foldl handleSSEMessage initState
        [SSEEvent.toolCallStart "q" [], SSEEvent.toolCallResult "1"]) (SSEEvent.toolCallResult "2")
      = List.foldl handleSSEMessage initState
        [SSEEvent.toolCallStart "q" [], SSEEvent.toolCallResult "1"] :=
  ⟨by decide, c4_dangling_result_dropped _ "2" (by decide)⟩

/-- Claim C5: processing a Warning(msg) event (spec-modelled handleWarning)
appends a closed WarningBlock carrying msg to the streaming block sequence
and modifies neither the existing blocks nor the rest of the state. -/
theorem c5_warning_appends_closed_block (s : ChatState) (msg : String) :
    (handleWarning s msg).blocksRef
      = s.blocksRef ++ [Block.warning (freshBlockId (s.blockIdCounter + 1)) msg]
    ∧ (handleWarning s msg).streamingBlocks
      = s.blocksRef ++ [Block.warning (freshBlockId (s.blockIdCounter + 1)) msg]
    ∧ openSuffix [Block.warning (freshBlockId (s.blockIdCounter + 1)) msg] = false
    ∧ (handleWarning s msg).messages = s.messages
    ∧ (handleWarning s msg).isLoading = s.isLoading
    ∧ (handleWarning s msg).streamingMessageId = s.streamingMessageId := by
  refine ⟨rfl, rfl, ?_, rfl, rfl, rfl⟩
  simp [openSuffix, Block.isRunningTool, Block.isContent]

/-- Claim C6: sendMessage pre-assigns the assistant message id at turn
start; non-terminal events preserve it, and the message committed by the
terminal done (on nonempty blocks) or error event carries exactly that
pre-assigned id. -/
theorem c6_identity_stability (s : ChatState) (text : String) (evs : List SSEEvent) (m : String)
    (h1 : (jsTrim text).isEmpty = false) (h2 : s.isLoading = false)
    (h3 : s.email.isEmpty = false) (h4 : ∀ e ∈ evs, e.isTerminal = false) :
    (sendMessage s text true).streamingMessageId
        = some (freshMessageId (s.messageIdCounter + 2))
    ∧ (afterTurnEvents s text evs).streamingMessageId
        = some (freshMessageId (s.messageIdCounter + 2))
    ∧ ((afterTurnEvents s text evs).blocksRef ≠ [] →
        (handleSSEMessage (afterTurnEvents s text evs) SSEEvent.done).messages
          = (afterTurnEvents s text evs).messages
            ++ [Message.assistant (freshMessageId (s.messageIdCounter + 2))
                  (afterTurnEvents s text evs).blocksRef])
    ∧ (handleSSEMessage (afterTurnEvents s text evs) (SSEEvent.error m)).messages
        = (afterTurnEvents s text evs).messages
          ++ [Message.assistant (freshMessageId (s.messageIdCounter + 2))
                ((afterTurnEvents s text evs).blocksRef
                  ++ [Block.error
                        (freshBlockId ((afterTurnEvents s text evs).blockIdCounter + 1)) m])] := by
  have hsend : (sendMessage s text true).streamingMessageId
      = some (freshMessageId (s.messageIdCounter + 2)) := by
    simp [sendMessage, h1, h2, h3]
  have hfold : (afterTurnEvents s text evs).streamingMessageId
      = some (freshMessageId (s.messageIdCounter + 2)) := by
    rw [afterTurnEvents, streamingMessageId_foldl evs _ h4, hsend]
  refine ⟨hsend, hfold, ?_, ?_⟩
  · intro hne
    rw [handle_done_commit _ hne]
    simp [commitMessageId, hfold]
  · rw [handle_error_eq]
    simp [commitMessageId, hfold]

/-- Claim C6 witness: a concrete turn with one thinking event commits under
the pre-assigned id msg-2. -/
theorem c6_witness :
    (jsTrim "hi").isEmpty = false
    ∧ (sendMessage initState "hi" true).streamingMessageId
        = some (freshMessageId (initState.messageIdCounter + 2))
    ∧ (afterTurnEvents initState "hi" [SSEEvent.thinking "a"]).streamingMessageId
        = some (freshMessageId (initState.messageIdCounter + 2))
    ∧ (handleSSEMessage (afterTurnEvents initState "hi" [SSEEvent.thinking "a"])
          SSEEvent.done).messages
        = (afterTurnEvents initState "hi" [SSEEvent.thinking "a"]).messages
          ++ [Message.assistant (freshMessageId (initState.messageIdCounter + 2))
                (afterTurnEvents initState "hi" [SSEEvent.thinking "a"]).blocksRef] := by
  have h := c6_identity_stability initState "hi" [SSEEvent.thinking "a"] "x"
    (by decide) rfl (by decide) (by decide)
  exact ⟨by decide, h.1, h.2.1, h.2.2.1 (by decide)⟩

/-- Claim C7: an error event appends a closed ErrorBlock after all
previously accumulated blocks, preserving them and their order, commits the
whole sequence as one assistant message, and clears the streaming state and
the loading flag; in particular an error event carrying timeout with no
prior events yields a finalized message containing exactly one ErrorBlock
with message timeout. -/
theorem c7_error_appends_and_commits (s : ChatState) (m : String) :
    (handleSSEMessage s (SSEEvent.error m)).messages
      = s.messages ++ [Message.assistant (commitMessageId s).1
          (s.blocksRef ++ [Block.error (freshBlockId (s.blockIdCounter + 1)) m])]
    ∧ (handleSSEMessage s (SSEEvent.error m)).blocksRef = []
    ∧ (handleSSEMessage s (SSEEvent.error m)).streamingBlocks = []
    ∧ (handleSSEMessage s (SSEEvent.error m)).isLoading = false
    ∧ (handleSSEMessage initState (SSEEvent.error "timeout")).messages
      = [Message.assistant "msg-1" [Block.error "block-1" "timeout"]] :=
  ⟨rfl, rfl, rfl, rfl, by decide⟩

/-- Claim C8: when the turn-start request fails, sendMessage commits an
assistant message containing a single closed ErrorBlock, clears the loading
flag and closes the transport channel. -/
theorem c8_request_failure_commits_error (s : ChatState) (text : String)
    (h1 : (jsTrim text).isEmpty = false) (h2 : s.isLoading = false)
    (h3 : s.email.isEmpty = false) :
    (sendMessage s text false).messages
      = s.messages ++ [Message.user (freshMessageId (s.messageIdCounter + 1)) (jsTrim text),
          Message.assistant (freshMessageId (s.messageIdCounter + 3))
            [Block.error (freshBlockId (s.blockIdCounter + 1)) "Erreur de connexion au serveur."]]
    ∧ (sendMessage s text false).isLoading = false
    ∧ (sendMessage s text false).connected = false
    ∧ (sendMessage s text false).streamingMessageId = none
    ∧ openSuffix [Block.error (freshBlockId (s.blockIdCounter + 1))
        "Erreur de connexion au serveur."] = false := by
  have hc : s.messageIdCounter + 2 + 1 = s.messageIdCounter + 3 := by omega
  refine ⟨?_, ?_, ?_, ?_, ?_⟩ <;>
    simp [sendMessage, h1, h2, h3, hc, openSuffix, Block.isRunningTool, Block.isContent,
      List.append_assoc]

/-- Claim C8 witness: the failing-request path applied to the initial
state. -/
theorem c8_witness :
    (jsTrim "hi").isEmpty = false
    ∧ (sendMessage initState "hi" false).isLoading = false
    ∧ (sendMessage initState "hi" false).connected = false
    ∧ (sendMessage initState "hi" false).messages
      = initState.messages
        ++ [Message.user (freshMessageId (initState.messageIdCounter + 1)) (jsTrim "hi"),
            Message.assistant (freshMessageId (initState.messageIdCounter + 3))
              [Block.error (freshBlockId (initState.blockIdCounter + 1))
                "Erreur de connexion au serveur."]] := by
  have h := c8_request_failure_commits_error initState "hi" (by decide) rfl (by decide)
  exact ⟨by decide, h.2.1, h.2.2.1, h.1⟩

/-- Claim C9: a plotly or data_table event first closes the most recent
still-RUNNING tool-call block — the status update leaves its result field
untouched, so an unset result stays none — and then appends a new
already-closed chart or table block; the concrete scenario with events
tool_call_start, plotly, done commits a DONE tool-call block with result
none followed by a chart block. -/
theorem c9_chart_closes_running_tool (s : ChatState) (j : String) (i : Nat)
    (h : findLastIndex Block.isRunningTool s.blocksRef = some i) :
    ((handleSSEMessage s (SSEEvent.plotly j)).blocksRef
        = modifyAt setToolStatusDone i s.blocksRef
          ++ [Block.plotly (freshBlockId (s.blockIdCounter + 1)) j])
    ∧ ((handleSSEMessage s (SSEEvent.dataTable j)).blocksRef
        = modifyAt setToolStatusDone i s.blocksRef
          ++ [Block.dataTable (freshBlockId (s.blockIdCounter + 1)) j])
    ∧ (∀ id n a r st, setToolStatusDone (Block.toolCall id n a r st)
        = Block.toolCall id n a r ToolCallStatus.done)
    ∧ (List.foldl handleSSEMessage initState
        [SSEEvent.toolCallStart "q" [], SSEEvent.plotly "c", SSEEvent.done]).messages
      = [Message.assistant "msg-1"
          [Block.toolCall "block-1" "q" [] none ToolCallStatus.done,
           Block.plotly "block-2" "c"]] := by
  refine ⟨?_, ?_, fun id n a r st => rfl, by decide⟩ <;>
    simp only [handleSSEMessage, ChatState.markLastToolCallDone, h, ChatState.addBlock]

/-- Claim C9 witness: the chart event closes the single RUNNING tool-call
block created by a tool_call_start. -/
theorem c9_witness :
    findLastIndex Block.isRunningTool
        (handleSSEMessage initState (SSEEvent.toolCallStart "q" [])).blocksRef = some 0
    ∧ (handleSSEMessage (handleSSEMessage initState (SSEEvent.toolCallStart "q" []))
          (SSEEvent.plotly "c")).blocksRef
      = modifyAt setToolStatusDone 0
          (handleSSEMessage initState (SSEEvent.toolCallStart "q" [])).blocksRef
        ++ [Block.plotly
              (freshBlockId
                ((handleSSEMessage initState (SSEEvent.toolCallStart "q" [])).blockIdCounter + 1))
              "c"] :=
  ⟨by decide, (c9_chart_closes_running_tool
      (handleSSEMessage initState (SSEEvent.toolCallStart "q" [])) "c" 0 (by decide)).1⟩

/-- Claim C10: a done event arriving on an empty streaming block sequence
appends no assistant message, whereas an error event always appends a
finalized message even with no accumulated blocks; in both cases the
streaming sequence is cleared and the loading flag set to false. -/
theorem c10_done_empty_no_message (s : ChatState) (m : String) (h : s.blocksRef = []) :
    (handleSSEMessage s SSEEvent.done).messages = s.messages
    ∧ (handleSSEMessage s SSEEvent.done).blocksRef = []
    ∧ (handleSSEMessage s SSEEvent.done).streamingBlocks = []
    ∧ (handleSSEMessage s SSEEvent.done).isLoading = false
    ∧ (handleSSEMessage s (SSEEvent.error m)).messages
      = s.messages ++ [Message.assistant (commitMessageId s).1
          [Block.error (freshBlockId (s.blockIdCounter + 1)) m]]
    ∧ (handleSSEMessage s (SSEEvent.error m)).blocksRef = []
    ∧ (handleSSEMessage s (SSEEvent.error m)).streamingBlocks = []
    ∧ (handleSSEMessage s (SSEEvent.error m)).isLoading = false := by
  rw [handle_done_empty s h, handle_error_eq s m]
  refine ⟨rfl, rfl, rfl, rfl, ?_, rfl, rfl, rfl⟩
  simp [h]

/-- Claim C10 witness: the initial state has no accumulated blocks; done
commits nothing while error commits an error-only message. -/
theorem c10_witness :
    initState.blocksRef = []
    ∧ (handleSSEMessage initState SSEEvent.done).messages = initState.messages
    ∧ (handleSSEMessage initState (SSEEvent.error "x")).messages
      = initState.messages ++ [Message.assistant (commitMessageId initState).1
          [Block.error (freshBlockId (initState.blockIdCounter + 1)) "x"]] := by
  have h := c10_done_empty_no_message initState "x" rfl
  exact ⟨rfl, h.1, h.2.2.2.2.1⟩

end DataAnalysisChat
